import Mathlib

set_option linter.unusedVariables false

namespace MyHealth

/-! # Shallow embedding of `src/myHealth/vitals.py`

The vitals store is a pandas DataFrame whose rows are vital-sign records
sorted ascending by the `datetime` column and re-indexed to the contiguous
range `0..n-1` after every sort (`sort_values(..., ignore_index=True)`).
We model it as a `List Record`, positions being list indices.

Python exceptions that the vitals functions raise or propagate are modelled
as an explicit error type `VErr`; a Python function that either returns a
value or raises is modelled as returning `Except VErr _`.
-/

/-- A calendar timestamp: `pd.Timestamp(year, month, day, hour, minute)`.
Comparison of timestamps is lexicographic on the five fields, and comparison
of the `.date()` truncations is lexicographic on the first three. -/
structure Timestamp where
  year : Nat
  month : Nat
  day : Nat
  hour : Nat
  minute : Nat
deriving DecidableEq, Repr

/-- `a.date() < b.date()` on Python `datetime.date` objects:
lexicographic on (year, month, day). -/
def Timestamp.dateLtB (a b : Timestamp) : Bool :=
  decide (a.year < b.year ∨ (a.year = b.year ∧
    (a.month < b.month ∨ (a.month = b.month ∧ a.day < b.day))))

/-- `a.date() == b.date()`: equality of (year, month, day). -/
def Timestamp.dateEqB (a b : Timestamp) : Bool :=
  decide (a.year = b.year ∧ a.month = b.month ∧ a.day = b.day)

/-- `a < b` on full `pd.Timestamp`s: lexicographic on
(year, month, day, hour, minute). -/
def Timestamp.dtLtB (a b : Timestamp) : Bool :=
  decide (a.year < b.year ∨ (a.year = b.year ∧
    (a.month < b.month ∨ (a.month = b.month ∧
    (a.day < b.day ∨ (a.day = b.day ∧
    (a.hour < b.hour ∨ (a.hour = b.hour ∧ a.minute < b.minute))))))))

/-- One row of the vitals DataFrame (columns
`datetime, sys, dia, pulse, glucose`).  The measurement columns are
optional (`pd.NA` is `none`); `glucose` is a float with one decimal place,
modelled as a rational. -/
structure Record where
  datetime : Timestamp
  sys : Option Nat
  dia : Option Nat
  pulse : Option Nat
  glucose : Option ℚ
deriving DecidableEq, Repr

/-- Errors raised (or propagated) by the Python code.
`keyError` models `KeyError` ("Record not found"), `recursionError` models
Python's `RecursionError` at the default recursion limit, `valueError`
models `ValueError` (notably numpy's "zero-size array to reduction
operation minimum" on an empty index), `typeError` models the `TypeError`
raised by `isinstance(x, pd.NA)` (`pd.NA` is an object, not a type), and
`duplicate` models `utility.DuplicateError`. -/
inductive VErr where
  | keyError
  | recursionError
  | valueError
  | typeError
  | duplicate
deriving DecidableEq, Repr

deriving instance DecidableEq for Except

/-- Core of `search_vitals` (lines 516-585): recursive binary search that
repeatedly `drop`s the out-of-range rows of a working copy in place.
Because each `drop` removes a contiguous block at one end of the remaining
(contiguous, original-labelled) index range, the surviving labels are
always exactly `[lo..hi]`; we track those bounds.  `lo > hi` is the
`index_array.size == 0` check (`KeyError`); the probe is
`int(np.median(index_array))`, which for the contiguous nonnegative range
`[lo..hi]` is `(lo+hi) // 2`.  `lt` is the strict comparison used on the
probe (`.date()` comparison when `date_only`, full timestamp otherwise).
The fuel argument models Python's default recursion limit of 1000 frames
(a depth the in-range executions of this variant never reach). -/
def search1Aux (db : List Record) (lt : Timestamp → Timestamp → Bool)
    (target : Timestamp) (lo hi : Int) : Nat → Except VErr Nat
  | 0 => .error .recursionError
  | fuel + 1 =>
    if lo > hi then .error .keyError
    else
      let middle : Nat := (lo + hi).toNat / 2
      match db[middle]? with
      | none => .error .keyError
      | some r =>
        if lt target r.datetime then
          search1Aux db lt target lo ((middle : Int) - 1) fuel
        else if lt r.datetime target then
          search1Aux db lt target ((middle : Int) + 1) hi fuel
        else
          .ok middle

/-- `search_vitals(vitalsdb, target_date, date_only=True)`: the
copy-and-shrink binary search.  The initial label range is the full index
`[0..n-1]`; an empty store fails the size check at once (`KeyError`). -/
def search_vitals (db : List Record) (target : Timestamp)
    (date_only : Bool := true) : Except VErr Nat :=
  search1Aux db (if date_only then Timestamp.dateLtB else Timestamp.dtLtB)
    target 0 ((db.length : Int) - 1) 1000

/-- Core of `search_vitals_2` (lines 593-658): bounds-tracking binary
search.  Each call re-applies the Python defaulting
`if not end_index: end_index = index_array.max()`, which is the truthiness
test: it resets `end_index` to `n-1` not only for `None` but also whenever
the passed bound is the integer `0`.  (`start_index` gets the symmetric
treatment with `index_array.min() = 0`, which is a no-op for both `None`
and `0`.)  The probe is `int((start+end)/2)`; on every reachable call
`0 ≤ start` and, once the bound check passes, `start ≤ end`, so the
truncating division equals `(start+end).toNat / 2`. -/
def search2Aux (db : List Record) (lt : Timestamp → Timestamp → Bool)
    (target : Timestamp) (s e : Int) : Nat → Except VErr Nat
  | 0 => .error .recursionError
  | fuel + 1 =>
    let e1 : Int := if e = 0 then (db.length : Int) - 1 else e
    if s > e1 then .error .keyError
    else
      let middle : Nat := (s + e1).toNat / 2
      match db[middle]? with
      | none => .error .keyError
      | some r =>
        if lt target r.datetime then
          search2Aux db lt target s ((middle : Int) - 1) fuel
        else if lt r.datetime target then
          search2Aux db lt target ((middle : Int) + 1) e1 fuel
        else
          .ok middle

/-- `search_vitals_2(vitalsdb, target_date, date_only=True)` with the
default `start_index=None, end_index=None, index_array=None`.  On an empty
store `index_array.min()` is numpy's zero-size reduction, which raises
`ValueError` (not the documented `KeyError`).  Otherwise the bounds start
at `min = 0` and `max = n-1`. -/
def search_vitals_2 (db : List Record) (target : Timestamp)
    (date_only : Bool := true) : Except VErr Nat :=
  if db.length = 0 then .error .valueError
  else
    search2Aux db (if date_only then Timestamp.dateLtB else Timestamp.dtLtB)
      target 0 ((db.length : Int) - 1) 1000

/-- The per-step comparison of `crawler` (lines 756-767): for mode
`"day"`/`"d"` compare the `.date()` truncations of the two timestamps, for
mode `"month"`/`"m"` compare only the `.month` attributes; any other mode
is `ValueError` (`none` here). -/
def granEqB (mode : String) (a b : Timestamp) : Option Bool :=
  if mode = "day" ∨ mode = "d" then some (a.dateEqB b)
  else if mode = "month" ∨ mode = "m" then some (a.month == b.month)
  else none

/-- `crawler(vitalsdb, current_index, search_downwards=True, mode="d")`
(lines 719-773).  `search_downwards=True` steps to `current_index + 1`
(later records), `False` steps to `current_index - 1`; a store boundary is
detected *before* the mode is validated, so a boundary call returns even
for an invalid mode.  Out-of-range `at` lookups are pandas `KeyError`.
(The Python defaults `search_downwards=True, mode="d"` are call-site
sugar; both arguments are explicit here.) -/
def crawler (db : List Record) (current_index : Nat)
    (search_downwards : Bool) (mode : String) :
    Except VErr Nat :=
  match search_downwards with
  | true =>
    if current_index + 1 = db.length then .ok current_index
    else
      match _h1 : db[current_index]?, _h2 : db[current_index + 1]? with
      | some c, some nx =>
        match granEqB mode c.datetime nx.datetime with
        | none => .error .valueError
        | some true => crawler db (current_index + 1) true mode
        | some false => .ok current_index
      | _, _ => .error .keyError
  | false =>
    if _h0 : current_index = 0 then .ok current_index
    else
      match _h1 : db[current_index]?, _h2 : db[current_index - 1]? with
      | some c, some nx =>
        match granEqB mode c.datetime nx.datetime with
        | none => .error .valueError
        | some true => crawler db (current_index - 1) false mode
        | some false => .ok current_index
      | _, _ => .error .keyError
termination_by
  match search_downwards with
  | true => db.length - current_index
  | false => current_index
decreasing_by
  · have : current_index + 1 < db.length := by
      have := List.getElem?_eq_some_iff.mp _h2
      exact this.1
    omega
  · omega

/-- The "View records before it" window of `select_timeframe` (lines
328-342): for a validated request `number > 0` at position `target`,
clamp `number` to `target + 1` (reporting the clamp to the user) and
select `range(target - number + 1, target + 1)`.  Returns the selected
positions and whether the clamp notice was displayed. -/
def selectNBefore (target : Nat) (number : Nat) : List Nat × Bool :=
  if number > target + 1 then
    (List.range' 0 (target + 1), true)
  else
    (List.range' (target + 1 - number) number, false)

/-- The five column-selection presets of `select_data` (menu cases 1-5). -/
inductive Preset where
  | all
  | glucoseOnly
  | bloodPressure
  | pulseRate
  | bpAndPulse
deriving DecidableEq, Repr

/-- `True` when at least one of the four measurement cells of the row is
not `pd.NA`. -/
def hasMeasurement (r : Record) : Bool :=
  r.sys.isSome || r.dia.isSome || r.pulse.isSome || r.glucose.isSome

/-- `df.dropna(subset=["sys", "dia", "pulse", "glucose"], how="all")`:
keep the rows with at least one measurement present. -/
def dropAllEmpty (db : List Record) : List Record :=
  db.filter hasMeasurement

/-- The DataFrame columns. -/
inductive Col where
  | datetime
  | sys
  | dia
  | pulse
  | glucose
deriving DecidableEq, Repr

/-- The cell of a row in a measurement column (`none` = `pd.NA`;
the numeric payload is irrelevant to NA-ness, so we only record
presence). -/
def cellPresent (r : Record) : Col → Bool
  | .datetime => true
  | .sys => r.sys.isSome
  | .dia => r.dia.isSome
  | .pulse => r.pulse.isSome
  | .glucose => r.glucose.isSome

/-- `filter_selected_data(selected_data, columns)` (lines 434-452):
project onto `columns` (a fresh DataFrame; the input object is untouched),
then `columns.remove("datetime")` and drop the rows whose requested
non-`datetime` cells are all `pd.NA`.  We return the kept columns together
with the surviving rows (projection keeps the full record value; which
cells are displayed is given by the column list). -/
def filter_selected_data (selected_data : List Record) (columns : List Col) :
    List Col × List Record :=
  let cols := columns.erase .datetime
  (columns, selected_data.filter (fun r => cols.any (cellPresent r)))

/-- `select_data(selected_timeframe, preset)` (lines 400-421, the menu
interaction replaced by the chosen preset).  The first component is the
value of the DataFrame object *passed in* after the call: menu case 1
runs `dropna(..., how="all", inplace=True)` on it, mutating it in place
(and the returned frame aliases it); cases 2-5 go through
`filter_selected_data`, which only projects and filters copies.  The
second component is the (columns, rows) view handed back for display. -/
def select_data (selected_timeframe : List Record) (preset : Preset) :
    List Record × (List Col × List Record) :=
  match preset with
  | .all =>
    let mutated := dropAllEmpty selected_timeframe
    (mutated, ([.datetime, .sys, .dia, .pulse, .glucose], mutated))
  | .glucoseOnly =>
    (selected_timeframe,
      filter_selected_data selected_timeframe [.datetime, .glucose])
  | .bloodPressure =>
    (selected_timeframe,
      filter_selected_data selected_timeframe [.datetime, .sys, .dia])
  | .pulseRate =>
    (selected_timeframe,
      filter_selected_data selected_timeframe [.datetime, .pulse])
  | .bpAndPulse =>
    (selected_timeframe,
      filter_selected_data selected_timeframe [.datetime, .sys, .dia, .pulse])

/-- `sort_values("datetime", inplace=True, ignore_index=True)`:
sort the rows ascending by timestamp and re-index from 0. -/
def sortByDatetime (db : List Record) : List Record :=
  db.mergeSort (fun a b => !b.datetime.dtLtB a.datetime)

/-- The values the user enters for the four measurement fields of a new
or edited record (`None` = pressed enter to skip = `pd.NA`). -/
structure VitalValues where
  sys : Option Nat
  dia : Option Nat
  pulse : Option Nat
  glucose : Option ℚ
deriving DecidableEq, Repr

/-- Status messages handed back to `vitals_menu` by the mutation
functions. -/
inductive VMsg where
  | noRecordsEdit
  | noRecordsRemove
  | notFoundEdit
  | notFoundRemove
  | added
  | edited
  | removed
  | notRemoved
deriving DecidableEq, Repr

/-- `add_vitals(vitalsdb)` (lines 827-887) with the solicited inputs made
explicit: the target timestamp (date and time) and the four measurement
values.  A deep backup is taken, then the duplicate check runs the
datetime-level `search_vitals_2`; success of the search raises
`DuplicateError`, while `KeyError`/`RecursionError` mean "no duplicate"
and anything else (the empty-store `ValueError`) propagates.  The code
then builds the record dict and evaluates
`all([isinstance(record[detail], pd.NA) ...])`; `pd.NA` is an object,
not a type, so `isinstance` raises `TypeError` unconditionally — before
the `pd.concat`/`sort_values` lines can run — and neither the local
`except ValueError` nor any caller catches `TypeError`.  The
insert-and-sort continuation (lines 876-881) is therefore dead code; it
would have been `sortByDatetime (db ++ [new_row])`. -/
def add_vitals (db : List Record) (target_datetime : Timestamp)
    (vals : VitalValues) : Except VErr (List Record × VMsg) :=
  match search_vitals_2 db target_datetime false with
  | .ok _ => .error .duplicate
  | .error .keyError => .error .typeError
  | .error .recursionError => .error .typeError
  | .error e => .error e

/-- `get_index_record(vitalsdb, message)` (lines 776-824) with the user
interaction made explicit: `target_date` is the solicited date and `pick`
the index the user eventually enters (the input loop repeats until the
pick is one of the displayed indices, so `pick` stands for the first valid
entry).  The date-level search is followed by the two day-granularity
crawls; search failures propagate to the caller. -/
def get_index_record (db : List Record) (target_date : Timestamp)
    (pick : Nat) : Except VErr (Nat × Record) :=
  match search_vitals_2 db target_date true with
  | .error e => .error e
  | .ok target =>
    match crawler db target false "d", crawler db target true "d" with
    | .ok _, .ok _ =>
      match db[pick]? with
      | some r => .ok (pick, r)
      | none => .error .keyError
    | .error e, _ => .error e
    | _, .error e => .error e

/-- The per-field answers of the edit dialogue: for each field, `none`
means the user answered "no" to changing it, `some v` means they answered
"yes" and entered `v` (for the timestamp fields, the new date or time). -/
structure EditInputs where
  newDate : Option (Nat × Nat × Nat)
  newTime : Option (Nat × Nat)
  newSys : Option (Option Nat)
  newDia : Option (Option Nat)
  newPulse : Option (Option Nat)
  newGlucose : Option (Option ℚ)
deriving DecidableEq, Repr

/-- `edit_vitals(vitalsdb)` (lines 890-954).  An empty store returns the
passed-in frame with "No records for editing." before any backup, search
or exception can occur.  Otherwise two deep copies are taken and
`get_index_record` locates the target; `KeyError`/`RecursionError` return
the backup with the not-found message.  When a record is found, the edit
loop applies the field updates and then evaluates
`all([isinstance(detail, pd.NA) ...])`, which — as in `add_vitals` —
raises `TypeError` unconditionally, uncaught by the local
`except ValueError`/`except KeyboardInterrupt` or any caller, so the
commit (`sort_values` + return of the edited copy) is dead code. -/
def edit_vitals (db : List Record) (target_date : Timestamp) (pick : Nat)
    (upd : EditInputs) : Except VErr (List Record × VMsg) :=
  if db.isEmpty then .ok (db, .noRecordsEdit)
  else
    match get_index_record db target_date pick with
    | .error .keyError => .ok (db, .notFoundEdit)
    | .error .recursionError => .ok (db, .notFoundEdit)
    | .error e => .error e
    | .ok _ => .error .typeError

/-- `remove_vitals(vitalsdb)` (lines 957-990).  An empty store returns the
passed-in frame with "No records for removing." before any backup or
search.  Otherwise the target is located via `get_index_record`
(`KeyError`/`RecursionError` → backup + not-found message); on a confirmed
removal the working copy drops the row and is re-sorted with fresh
contiguous positions, and on a declined confirmation the backup is
returned unchanged. -/
def remove_vitals (db : List Record) (target_date : Timestamp) (pick : Nat)
    (confirm : Bool) : Except VErr (List Record × VMsg) :=
  if db.isEmpty then .ok (db, .noRecordsRemove)
  else
    match get_index_record db target_date pick with
    | .error .keyError => .ok (db, .notFoundRemove)
    | .error .recursionError => .ok (db, .notFoundRemove)
    | .error e => .error e
    | .ok (idx, _) =>
      if confirm then
        .ok (sortByDatetime (db.eraseIdx idx), .removed)
      else
        .ok (db, .notRemoved)

/-! ## Auxiliary notions used to state the claims -/

/-- `pd.Timestamp(year, month, day, hour, minute)`. -/
def mkT (y m d hh mm : Nat) : Timestamp := ⟨y, m, d, hh, mm⟩

/-- A record carrying only a pulse measurement. -/
def pRec (ts : Timestamp) (p : Nat) : Record := ⟨ts, none, none, some p, none⟩

/-- The store is ascending by timestamp (strictly, per the no-duplicate
invariant): every adjacent pair is in `dtLtB` order. -/
def ascendingB : List Record → Bool
  | [] => true
  | [_] => true
  | a :: b :: rest => a.datetime.dtLtB b.datetime && ascendingB (b :: rest)

/-- The four mode strings `crawler` accepts. -/
def validMode (mode : String) : Prop :=
  mode = "day" ∨ mode = "d" ∨ mode = "month" ∨ mode = "m"

/-- The granularity field `crawler` compares for a valid mode: the full
calendar date for day granularity, and only the month-of-year for month
granularity (embedded into one codomain). -/
def granKey (mode : String) (t : Timestamp) : Nat × Nat × Nat :=
  if mode = "day" ∨ mode = "d" then (t.year, t.month, t.day)
  else (0, t.month, 0)

/-- The granularity field of the record at position `l` (`none` when `l`
is out of range). -/
def gAt (db : List Record) (mode : String) (l : Nat) : Option (Nat × Nat × Nat) :=
  (db[l]?).map (fun r => granKey mode r.datetime)

/-! ## Concrete stores used as inputs -/

/-- A three-record store, sorted ascending, with three distinct dates:
2024-03-01 08:00 (pulse 70), 2024-03-03 09:00 (pulse 71),
2024-03-05 10:00 (pulse 72). -/
def db3 : List Record :=
  [pRec (mkT 2024 3 1 8 0) 70, pRec (mkT 2024 3 3 9 0) 71,
   pRec (mkT 2024 3 5 10 0) 72]

/-- The one-record store of the spec scenarios:
2024-03-01 08:00, pulse 70. -/
def db1 : List Record := [pRec (mkT 2024 3 1 8 0) 70]

/-- A sorted store whose first and last records share the month-of-year
(January) across different years, with a February record in between:
2023-01-05, 2023-02-10, 2024-01-20. -/
def dbM : List Record :=
  [pRec (mkT 2023 1 5 8 0) 70, pRec (mkT 2023 2 10 8 0) 71,
   pRec (mkT 2024 1 20 8 0) 72]

/-- A store holding a single record with no measurement at all (such a row
enters through `load_vitals`, which does not validate). -/
def dbEmptyRow : List Record := [⟨mkT 2024 3 1 8 0, none, none, none, none⟩]

/-! ## The non-convergence of `search_vitals_2` on `db3`

Whenever the bounds-tracking search passes `end_index = 0` to the next
call, the truthiness test `if not end_index` resets the bound to
`index_array.max()`.  On `db3` any target strictly below the middle record
(position 1) drives the bounds from `(0, 2)` to `(0, 0)`, which the reset
turns back into `(0, 2)`: the search cycles until the recursion limit. -/

theorem search2Aux_db3_loops (lt : Timestamp → Timestamp → Bool)
    (target : Timestamp) (h : lt target (mkT 2024 3 3 9 0) = true) :
    ∀ fuel, search2Aux db3 lt target 0 2 fuel = .error .recursionError ∧
      search2Aux db3 lt target 0 0 fuel = .error .recursionError := by
  intro fuel
  induction fuel with
  | zero => exact ⟨rfl, rfl⟩
  | succ n ih =>
    have h2 : search2Aux db3 lt target 0 2 (n + 1) =
        if lt target (mkT 2024 3 3 9 0) then search2Aux db3 lt target 0 0 n
        else if lt (mkT 2024 3 3 9 0) target then
          search2Aux db3 lt target 2 2 n
        else .ok 1 := rfl
    have h0 : search2Aux db3 lt target 0 0 (n + 1) =
        if lt target (mkT 2024 3 3 9 0) then search2Aux db3 lt target 0 0 n
        else if lt (mkT 2024 3 3 9 0) target then
          search2Aux db3 lt target 2 2 n
        else .ok 1 := rfl
    rw [h2, h0, h]
    simp only [if_pos rfl]
    exact ⟨ih.2, ih.2⟩

/-- The two entry bounds of `search_vitals_2` on a three-record store. -/
theorem search_vitals_2_db3_eq (lt0 : Bool) (target : Timestamp) :
    search_vitals_2 db3 target lt0 =
      search2Aux db3
        (if lt0 then Timestamp.dateLtB else Timestamp.dtLtB) target 0 2
        1000 := by
  have hlen : db3.length = 3 := rfl
  unfold search_vitals_2
  rw [hlen]
  norm_num

/-- The date-level search for the first record's date loops on `db3`. -/
theorem search_db3_first_date :
    search_vitals_2 db3 (mkT 2024 3 1 0 0) true = .error .recursionError := by
  rw [search_vitals_2_db3_eq]
  exact (search2Aux_db3_loops Timestamp.dateLtB (mkT 2024 3 1 0 0)
    (by decide) 1000).1

/-- The date-level search for an absent date below the middle record also
loops on `db3` (instead of raising the not-found `KeyError`). -/
theorem search_db3_absent_date :
    search_vitals_2 db3 (mkT 2024 3 2 0 0) true = .error .recursionError := by
  rw [search_vitals_2_db3_eq]
  exact (search2Aux_db3_loops Timestamp.dateLtB (mkT 2024 3 2 0 0)
    (by decide) 1000).1

/-- The datetime-level search for the first record's exact timestamp loops
on `db3`: the duplicate check of `add_vitals` cannot see this record. -/
theorem search_db3_first_dt :
    search_vitals_2 db3 (mkT 2024 3 1 8 0) false = .error .recursionError := by
  rw [search_vitals_2_db3_eq]
  exact (search2Aux_db3_loops Timestamp.dtLtB (mkT 2024 3 1 8 0)
    (by decide) 1000).1

/-! ## Crawler range characterization -/

/-- For a valid mode, the per-step comparison succeeds and tests equality
of the granularity fields. -/
theorem granEqB_valid (mode : String) (hm : validMode mode)
    (a b : Timestamp) :
    granEqB mode a b = some (decide (granKey mode a = granKey mode b)) := by
  rcases hm with h | h | h | h <;> subst h
  · rw [granEqB, if_pos (Or.inl rfl), granKey, granKey,
      if_pos (Or.inl rfl), if_pos (Or.inl rfl)]
    congr 1
    rw [Timestamp.dateEqB]
    exact decide_eq_decide.mpr (by simp [Prod.ext_iff])
  · rw [granEqB, if_pos (Or.inr rfl), granKey, granKey,
      if_pos (Or.inr rfl), if_pos (Or.inr rfl)]
    congr 1
    rw [Timestamp.dateEqB]
    exact decide_eq_decide.mpr (by simp [Prod.ext_iff])
  · rw [granEqB, if_neg (by decide), if_pos (Or.inl rfl), granKey, granKey,
      if_neg (by decide), if_neg (by decide)]
    congr 1
    by_cases h1 : a.month = b.month <;> simp [h1, Prod.ext_iff]
  · rw [granEqB, if_neg (by decide), if_pos (Or.inr rfl), granKey, granKey,
      if_neg (by decide), if_neg (by decide)]
    congr 1
    by_cases h1 : a.month = b.month <;> simp [h1, Prod.ext_iff]

/-- Unfolding `crawler` upwards at the store boundary. -/
theorem crawler_up_last (db : List Record) (mode : String) (i : Nat)
    (h : i + 1 = db.length) : crawler db i true mode = .ok i := by
  rw [crawler.eq_def]
  simp [h]

/-- Unfolding `crawler` upwards away from the boundary. -/
theorem crawler_up_step (db : List Record) (mode : String) (i : Nat)
    (c nx : Record) (h : i + 1 ≠ db.length) (h1 : db[i]? = some c)
    (h2 : db[i + 1]? = some nx) :
    crawler db i true mode =
      match granEqB mode c.datetime nx.datetime with
      | none => .error .valueError
      | some true => crawler db (i + 1) true mode
      | some false => .ok i := by
  rw [crawler.eq_def]
  simp only [if_neg h]
  split <;> simp_all

/-- Unfolding `crawler` downwards at position 0. -/
theorem crawler_down_zero (db : List Record) (mode : String) :
    crawler db 0 false mode = .ok 0 := by
  rw [crawler.eq_def]
  simp

/-- Unfolding `crawler` downwards away from position 0. -/
theorem crawler_down_step (db : List Record) (mode : String) (i : Nat)
    (c nx : Record) (h : i ≠ 0) (h1 : db[i]? = some c)
    (h2 : db[i - 1]? = some nx) :
    crawler db i false mode =
      match granEqB mode c.datetime nx.datetime with
      | none => .error .valueError
      | some true => crawler db (i - 1) false mode
      | some false => .ok i := by
  rw [crawler.eq_def]
  simp only [h, dite_false, dif_neg h]
  split <;> simp_all

/-- Upward crawl: from a valid position, `crawler` with
`search_downwards=True` reaches the last position of the contiguous run of
equal granularity fields extending to later records. -/
theorem crawler_up_spec (db : List Record) (mode : String)
    (hm : validMode mode) :
    ∀ n i, db.length - i ≤ n → i < db.length →
    ∃ j, crawler db i true mode = .ok j ∧ i ≤ j ∧ j < db.length ∧
      (∀ l, i ≤ l → l ≤ j → gAt db mode l = gAt db mode i) ∧
      (j + 1 < db.length → gAt db mode (j + 1) ≠ gAt db mode j) := by
  intro n
  induction n with
  | zero => intro i hn hi; omega
  | succ n ih =>
    intro i hn hi
    by_cases hlast : i + 1 = db.length
    · refine ⟨i, crawler_up_last db mode i hlast, le_refl i, hi, ?_, ?_⟩
      · intro l h1 h2
        have : l = i := le_antisymm h2 h1
        rw [this]
      · intro hcon; omega
    · have hi1 : i + 1 < db.length := by omega
      obtain ⟨c, hc⟩ : ∃ c, db[i]? = some c :=
        ⟨db[i], List.getElem?_eq_getElem hi⟩
      obtain ⟨nx, hnx⟩ : ∃ nx, db[i + 1]? = some nx :=
        ⟨db[i + 1], List.getElem?_eq_getElem hi1⟩
      rw [crawler_up_step db mode i c nx hlast hc hnx,
        granEqB_valid mode hm]
      have hgi : gAt db mode i = some (granKey mode c.datetime) := by
        simp [gAt, hc]
      have hgi1 : gAt db mode (i + 1) = some (granKey mode nx.datetime) := by
        simp [gAt, hnx]
      by_cases heq : granKey mode c.datetime = granKey mode nx.datetime
      · rw [decide_eq_true heq]
        obtain ⟨j, hj, hij, hjlen, hchain, hbound⟩ :=
          ih (i + 1) (by omega) hi1
        refine ⟨j, by simpa using hj, by omega, hjlen, ?_, hbound⟩
        intro l h1 h2
        by_cases hl : l = i
        · rw [hl]
        · have h3 := hchain l (by omega) h2
          rw [h3, hgi1, hgi, heq]
      · rw [decide_eq_false heq]
        refine ⟨i, by simp, le_refl i, hi, ?_, ?_⟩
        · intro l h1 h2
          have : l = i := le_antisymm h2 h1
          rw [this]
        · intro _
          rw [hgi1, hgi]
          intro hcon
          exact heq (Option.some_injective _ hcon).symm

/-- Downward crawl: from a valid position, `crawler` with
`search_downwards=False` reaches the first position of the contiguous run
of equal granularity fields extending to earlier records. -/
theorem crawler_down_spec (db : List Record) (mode : String)
    (hm : validMode mode) :
    ∀ i, i < db.length →
    ∃ j, crawler db i false mode = .ok j ∧ j ≤ i ∧
      (∀ l, j ≤ l → l ≤ i → gAt db mode l = gAt db mode i) ∧
      (0 < j → gAt db mode (j - 1) ≠ gAt db mode j) := by
  intro i
  induction i with
  | zero =>
    intro hi
    refine ⟨0, crawler_down_zero db mode, le_refl 0, ?_, ?_⟩
    · intro l h1 h2
      have : l = 0 := by omega
      rw [this]
    · intro hcon; omega
  | succ k ih =>
    intro hi
    have hk : k < db.length := by omega
    obtain ⟨c, hc⟩ : ∃ c, db[k + 1]? = some c :=
      ⟨db[k + 1], List.getElem?_eq_getElem hi⟩
    obtain ⟨nx, hnx⟩ : ∃ nx, db[k]? = some nx :=
      ⟨db[k], List.getElem?_eq_getElem hk⟩
    have hstep := crawler_down_step db mode (k + 1) c nx (by omega) hc
      (by simpa using hnx)
    rw [hstep, granEqB_valid mode hm]
    have hgi : gAt db mode (k + 1) = some (granKey mode c.datetime) := by
      simp [gAt, hc]
    have hgk : gAt db mode k = some (granKey mode nx.datetime) := by
      simp [gAt, hnx]
    by_cases heq : granKey mode c.datetime = granKey mode nx.datetime
    · rw [decide_eq_true heq]
      obtain ⟨j, hj, hjk, hchain, hbound⟩ := ih hk
      refine ⟨j, by simpa using hj, by omega, ?_, hbound⟩
      intro l h1 h2
      by_cases hl : l = k + 1
      · rw [hl]
      · have h3 := hchain l h1 (by omega)
        rw [h3, hgk, hgi, heq]
    · rw [decide_eq_false heq]
      refine ⟨k + 1, by simp, le_refl _, ?_, ?_⟩
      · intro l h1 h2
        have : l = k + 1 := by omega
        rw [this]
      · intro _
        have hpred : k + 1 - 1 = k := by omega
        rw [hpred, hgk, hgi]
        intro hcon
        exact heq (Option.some_injective _ hcon).symm

/-! ## Claim theorems -/

/-- C4 counterexample: on the sorted store `dbM` =
[2023-01-05, 2023-02-10, 2024-01-20] with month granularity, both crawls
from position 0 return 0, so the inclusive range is the singleton [0]; yet
position 2 (January 2024) has the same granularity field (month-of-year 1)
as position 0 (January 2023) and lies outside the range — the range does
not contain *exactly* the positions whose granularity field equals P's. -/
theorem claim4_counterexample :
    ascendingB dbM = true ∧
    crawler dbM 0 false "m" = .ok 0 ∧
    crawler dbM 0 true "m" = .ok 0 ∧
    gAt dbM "m" 2 = gAt dbM "m" 0 ∧
    ¬((0 : Nat) ≤ 2 ∧ 2 ≤ 0) := by
  refine ⟨by decide, crawler_down_zero dbM "m", ?_, by decide, by decide⟩
  rw [crawler_up_step dbM "m" 0 (pRec (mkT 2023 1 5 8 0) 70)
    (pRec (mkT 2023 2 10 8 0) 71) (by decide) (by decide) (by decide)]
  decide

/-- C4 (corrected): for every sorted store, valid granularity mode and
position `P`, the two crawls succeed and the inclusive range
`[crawler(P, earlier), crawler(P, later)]` contains exactly the positions
`q` such that every record between `P` and `q` (inclusive) shares `P`'s
granularity field — the maximal contiguous run around `P` — and when both
crawls return `P` itself the range is the singleton `[P]`. -/
theorem claim4_crawl_contiguous_run (db : List Record) (mode : String)
    (P : Nat) (hsort : ascendingB db = true) (hm : validMode mode)
    (hP : P < db.length) :
    ∃ lo hi, crawler db P false mode = .ok lo ∧
      crawler db P true mode = .ok hi ∧
      lo ≤ P ∧ P ≤ hi ∧ hi < db.length ∧
      (∀ q, (lo ≤ q ∧ q ≤ hi) ↔
        (q < db.length ∧
         ∀ j, min P q ≤ j → j ≤ max P q →
           gAt db mode j = gAt db mode P)) ∧
      ((lo = P ∧ hi = P) → ∀ q, (lo ≤ q ∧ q ≤ hi) ↔ q = P) := by
  obtain ⟨lo, hdlo, hloP, hchainD, hboundD⟩ :=
    crawler_down_spec db mode hm P hP
  obtain ⟨hi, hdhi, hPhi, hhilen, hchainU, hboundU⟩ :=
    crawler_up_spec db mode hm db.length P (by omega) hP
  refine ⟨lo, hi, hdlo, hdhi, hloP, hPhi, hhilen, ?_, ?_⟩
  · intro q
    constructor
    · rintro ⟨h1, h2⟩
      refine ⟨by omega, ?_⟩
      intro j hj1 hj2
      by_cases hjP : j ≤ P
      · exact hchainD j (by omega) hjP
      · exact hchainU j (by omega) (by omega)
    · rintro ⟨hqlen, hrun⟩
      constructor
      · by_contra hq
        push_neg at hq
        have h0lo : 0 < lo := by omega
        have hA : gAt db mode (lo - 1) = gAt db mode P :=
          hrun (lo - 1) (by omega) (by omega)
        have hB : gAt db mode lo = gAt db mode P :=
          hchainD lo (le_refl lo) hloP
        exact hboundD h0lo (hA.trans hB.symm)
      · by_contra hq
        push_neg at hq
        have hA : gAt db mode (hi + 1) = gAt db mode P :=
          hrun (hi + 1) (by omega) (by omega)
        have hB : gAt db mode hi = gAt db mode P :=
          hchainU hi hPhi (le_refl hi)
        exact hboundU (by omega) (hA.trans hB.symm)
  · rintro ⟨hl, hh⟩ q
    subst hl
    subst hh
    constructor
    · rintro ⟨h1, h2⟩; omega
    · rintro rfl; exact ⟨le_refl q, le_refl q⟩

/-- Witness for C4 on `db3` with day granularity at position 1: the
crawls delimit the singleton run of the date 2024-03-03. -/
theorem claim4_crawl_contiguous_run_witness :
    ascendingB db3 = true ∧ validMode "d" ∧ 1 < db3.length ∧
    (∃ lo hi, crawler db3 1 false "d" = .ok lo ∧
      crawler db3 1 true "d" = .ok hi ∧
      lo ≤ 1 ∧ 1 ≤ hi ∧ hi < db3.length ∧
      (∀ q, (lo ≤ q ∧ q ≤ hi) ↔
        (q < db3.length ∧
         ∀ j, min 1 q ≤ j → j ≤ max 1 q →
           gAt db3 "d" j = gAt db3 "d" 1)) ∧
      ((lo = 1 ∧ hi = 1) → ∀ q, (lo ≤ q ∧ q ≤ hi) ↔ q = 1)) :=
  ⟨by decide, by unfold validMode; decide, by decide,
    claim4_crawl_contiguous_run db3 "d" 1 (by decide)
      (by unfold validMode; decide) (by decide)⟩

/-- C1 (code_bug): on the sorted three-record store `db3` the date
2024-03-01 is present (record 0), yet `search_vitals_2` with
`date_only=True` exhausts the recursion limit instead of returning a
matching position, because the bound `end_index = 0` is falsy and is reset
to the maximum; and for the absent date 2024-03-02 it likewise raises
`RecursionError` instead of the not-found `KeyError`.  This contradicts
the function's own docstring ("RecursionError ... Only occurs if there
are >2^1000 records"). -/
theorem claim1_datesearch_miss :
    (db3.any fun r => r.datetime.dateEqB (mkT 2024 3 1 0 0)) = true ∧
    search_vitals_2 db3 (mkT 2024 3 1 0 0) true = .error .recursionError ∧
    (∀ r ∈ db3, r.datetime.dateEqB (mkT 2024 3 2 0 0) = false) ∧
    search_vitals_2 db3 (mkT 2024 3 2 0 0) true = .error .recursionError :=
  ⟨by decide, search_db3_first_date, by decide, search_db3_absent_date⟩

/-- C2 (code_bug): the copy-and-shrink search and the bounds-tracking
search do not behave identically: on `db3` with target date 2024-03-01
(present, at position 0) `search_vitals` returns position 0 while
`search_vitals_2` exhausts the recursion limit. -/
theorem claim2_variants_disagree :
    search_vitals db3 (mkT 2024 3 1 0 0) true = .ok 0 ∧
    search_vitals_2 db3 (mkT 2024 3 1 0 0) true = .error .recursionError :=
  ⟨rfl, search_db3_first_date⟩

/-- C3 (code_bug): on the empty store `search_vitals_2` raises `ValueError`
(numpy's zero-size reduction in `index_array.min()`), not the
NOT_FOUND `KeyError`; and since `add_vitals` only catches
`KeyError`/`RecursionError` around its duplicate check, the `ValueError`
propagates and no Add on an empty store can ever succeed — in particular
the spec's Add(2024-03-01T08:00, pulse=70) does not leave a one-record
store. -/
theorem claim3_empty_store_valueerror :
    search_vitals_2 ([] : List Record) (mkT 2024 3 1 8 0) true =
      .error .valueError ∧
    add_vitals ([] : List Record) (mkT 2024 3 1 8 0)
      ⟨none, none, some 70, none⟩ = .error .valueError ∧
    (∀ (tgt : Timestamp) (v : VitalValues),
      add_vitals ([] : List Record) tgt v = .error .valueError) :=
  ⟨rfl, rfl, fun _ _ => rfl⟩

/-- C5 (code_bug): `db3` already holds a record at exactly
2024-03-01 08:00, but Add at that timestamp is not rejected with
DUPLICATE: the datetime-level search loops to `RecursionError`, which the
duplicate check treats as "no duplicate", and the operation then dies on
the unconditional `TypeError` of the all-empty check instead. -/
theorem claim5_duplicate_not_rejected :
    (db3.any fun r => r.datetime == mkT 2024 3 1 8 0) = true ∧
    add_vitals db3 (mkT 2024 3 1 8 0) ⟨none, none, some 72, none⟩ =
      .error .typeError ∧
    add_vitals db3 (mkT 2024 3 1 8 0) ⟨none, none, some 72, none⟩ ≠
      .error .duplicate := by
  have hadd : add_vitals db3 (mkT 2024 3 1 8 0) ⟨none, none, some 72, none⟩ =
      .error .typeError := by
    unfold add_vitals
    rw [search_db3_first_dt]
  exact ⟨by decide, hadd, by rw [hadd]; simp⟩

/-- C6 (code_bug): Add with all measurement fields absent does not produce
a recoverable EMPTY_RECORD rejection: the all-empty check
`isinstance(record[detail], pd.NA)` raises `TypeError` unconditionally
(`pd.NA` is an object, not a type), which no caller catches — the spec
scenario Add(2024-03-02T08:00, all fields empty) on the one-record store
crashes instead of re-prompting. -/
theorem claim6_empty_record_crashes :
    add_vitals db1 (mkT 2024 3 2 8 0) ⟨none, none, none, none⟩ =
      .error .typeError ∧
    (∀ v : VitalValues,
      add_vitals db1 (mkT 2024 3 2 8 0) v = .error .typeError) :=
  ⟨rfl, fun _ => rfl⟩

/-- C9 (code_bug): the store invariant "no two records share the exact
same timestamp" is unprotected: `db3` holds a record at exactly
2024-03-01 08:00, but the datetime-level duplicate-check search raises
`RecursionError` there, so `add_vitals` never reports DUPLICATE for this
timestamp (it proceeds to the insert path and dies on the unrelated
`TypeError` instead; with the documented all-empty check it would insert
a second record at the occupied timestamp). -/
theorem claim9_uniqueness_unprotected :
    (db3.any fun r => r.datetime == mkT 2024 3 1 8 0) = true ∧
    search_vitals_2 db3 (mkT 2024 3 1 8 0) false = .error .recursionError ∧
    (∀ v : VitalValues,
      add_vitals db3 (mkT 2024 3 1 8 0) v ≠ .error .duplicate) := by
  refine ⟨by decide, search_db3_first_dt, fun v => ?_⟩
  unfold add_vitals
  rw [search_db3_first_dt]
  simp

/-- C10 (confirmed): on the empty store, `edit_vitals` and `remove_vitals`
return the passed-in store unchanged with their "no records" messages;
the empty test is the first statement of both functions, before the
backup copies, the search, or any NOT_FOUND path. -/
theorem claim10_empty_edit_remove :
    ∀ (tgt : Timestamp) (pick : Nat) (upd : EditInputs) (confirm : Bool),
      edit_vitals ([] : List Record) tgt pick upd =
        .ok ([], .noRecordsEdit) ∧
      remove_vitals ([] : List Record) tgt pick confirm =
        .ok ([], .noRecordsRemove) :=
  fun _ _ _ _ => ⟨rfl, rfl⟩

/-- C7 (confirmed): the "N before" window at position `P` with requested
count `N > 0` is the contiguous block of `min N (P+1)` positions ending at
`P`; the clamp notice is reported exactly when fewer than `N` positions
exist at or before `P`; no error is possible (the branch is total). -/
theorem claim7_n_before_window (P N : Nat) (hN : 0 < N) :
    (selectNBefore P N).1.length = min N (P + 1) ∧
    (∀ q, q ∈ (selectNBefore P N).1 ↔
      (P + 1 - min N (P + 1) ≤ q ∧ q ≤ P)) ∧
    ((selectNBefore P N).2 = true ↔ P + 1 < N) := by
  unfold selectNBefore
  by_cases hc : N > P + 1
  · rw [if_pos hc]
    refine ⟨by simp [List.length_range']; omega, fun q => ?_, by simpa⟩
    simp only [List.mem_range'_1]
    omega
  · rw [if_neg hc]
    refine ⟨by simp [List.length_range']; omega, fun q => ?_,
      by simp; omega⟩
    simp only [List.mem_range'_1]
    omega

/-- Witness for C7 at the spec scenario: N=10 requested at position 2 of a
three-record store returns all three positions 0,1,2 with a clamp
notice. -/
theorem claim7_n_before_window_witness :
    0 < 10 ∧
    ((selectNBefore 2 10).1.length = min 10 (2 + 1) ∧
    (∀ q, q ∈ (selectNBefore 2 10).1 ↔
      (2 + 1 - min 10 (2 + 1) ≤ q ∧ q ≤ 2)) ∧
    ((selectNBefore 2 10).2 = true ↔ 2 + 1 < 10)) :=
  ⟨by decide, claim7_n_before_window 2 10 (by decide)⟩

/-- C8 counterexample: on a store holding one row with every measurement
cell `pd.NA`, preset "View All Data" runs `dropna(..., inplace=True)` on
the DataFrame passed in and drops that row from the underlying store: the
store after filtering differs from the store before. -/
theorem claim8_counterexample :
    (select_data dbEmptyRow .all).1 ≠ dbEmptyRow := by decide

/-- C8 (corrected): for stores all of whose records carry at least one
measurement (the Record invariant; the in-place `dropna` then removes
nothing), every column preset leaves the underlying store unchanged, row
for row and cell for cell. -/
theorem claim8_filter_preserves_store (db : List Record) (p : Preset)
    (h : ∀ r ∈ db, hasMeasurement r = true) :
    (select_data db p).1 = db := by
  cases p <;>
    simp only [select_data, dropAllEmpty, filter_selected_data]
  exact List.filter_eq_self.mpr h

/-- Witness for C8 on `db3` (all records carry a pulse measurement) with
the preset that mutates in place. -/
theorem claim8_filter_preserves_store_witness :
    (∀ r ∈ db3, hasMeasurement r = true) ∧ (select_data db3 .all).1 = db3 :=
  ⟨by decide, claim8_filter_preserves_store db3 .all (by decide)⟩

end MyHealth
